import Mathlib

/-!
Formal model of the chat bot in src/main.py: the Python string helpers the
handlers use, the four mini-game engines over the persisted game_progress
row, the free-text session router, the store accessors with their
try/except/finally shape, and the save-favorite callback payload parsing.

Message texts and city names are modelled as lists of characters; persisted
integers as Int; randomness (random.choice, random.randint) is passed in as
explicit parameters so every definition stays executable.
-/

namespace ChatBot

/-- One character of Python lower-casing, covering the ASCII and Cyrillic
letters this bot works with (models str.lower on those alphabets). -/
def pyLowerChar (c : Char) : Char :=
  if 'A' ≤ c ∧ c ≤ 'Z' then Char.ofNat (c.toNat + 32)
  else if 'А' ≤ c ∧ c ≤ 'Я' then Char.ofNat (c.toNat + 32)
  else if c = 'Ё' then 'ё'
  else c

/-- Models Python str.lower over a message text. -/
def pyLower (s : List Char) : List Char := s.map pyLowerChar

/-- Models Python str.strip: drop whitespace from both ends. -/
def pyStrip (s : List Char) : List Char :=
  ((s.dropWhile Char.isWhitespace).reverse.dropWhile Char.isWhitespace).reverse

/-- City names and message texts, as character lists. -/
abbrev City := List Char

/-- The trailing soft/hard signs the City-Chain letter rule skips
(the membership test `last_letter[-1] in 'ьъ'`). -/
def isSign (c : Char) : Bool := c == 'ь' || c == 'ъ'

/-- Strip trailing soft/hard signs, as the while-loop in handle_message
does (`while last_letter and last_letter[-1] in 'ьъ'`). -/
def stripSigns (s : City) : City := (s.reverse.dropWhile isSign).reverse

/-- `last_letter = last_letter[-1] if last_letter else ''` after the
stripping loop; `none` models the empty string. -/
def lastLetter (s : City) : Option Char := (stripSigns s).getLast?

/-- Models `c.startswith(next_letter)` where next_letter is empty or a
single character. -/
def startsWithL (l : Option Char) (c : City) : Bool :=
  match l with
  | none => true
  | some a => c.head? == some a

/-- The `state` JSON blob of the City-Chain game: `last_city` and
`used_cities`, with the defaults `""` and `[]` used by `state.get`. -/
structure CitiesSt where
  last_city : City
  used_cities : List City
deriving DecidableEq

/-- Observable effects of one City-Chain turn of handle_message.
`dbScore`/`dbState` are the game_progress row after the turn (unchanged
when update_game_state was not called); `savedScore` is the score of the
game_results row inserted by save_game_result, if any; `awarded` means the
`score >= 100` block ran (award_achievement plus update_stars 10);
`ended` means `awaiting_game` was set to False; `crashed` means an
uncaught IndexError (`city[0]` on an empty string) escaped the handler. -/
structure CitiesOut where
  dbScore : Int
  dbState : CitiesSt
  accepted : Bool
  crashed : Bool
  savedScore : Option Int
  persisted : Bool
  awarded : Bool
  ended : Bool
deriving DecidableEq

/-- One City-Chain turn (handle_message, branch `awaiting_game == "Cities"`).
`valid` is VALID_CITIES, `pick` resolves random.choice over the computed
`available_cities`, `gname`/`score`/`st` are the row read by
get_game_state, `text` is the raw message text. -/
def citiesTurn (valid : List City) (pick : Nat) (gname : Option String)
    (score : Int) (st : CitiesSt) (text : City) : CitiesOut :=
  if gname ≠ some "Cities" then
    { dbScore := score, dbState := st, accepted := false, crashed := false,
      savedScore := none, persisted := false, awarded := false, ended := true }
  else
    let city := pyLower (pyStrip text)
    if city ∉ valid then
      { dbScore := score, dbState := st, accepted := false, crashed := false,
        savedScore := none, persisted := false, awarded := false, ended := false }
    else if city ∈ st.used_cities then
      { dbScore := score, dbState := st, accepted := false, crashed := false,
        savedScore := none, persisted := false, awarded := false, ended := false }
    else if st.last_city ≠ [] ∧ city = [] then
      { dbScore := score, dbState := st, accepted := false, crashed := true,
        savedScore := none, persisted := false, awarded := false, ended := false }
    else if st.last_city ≠ [] ∧ city.head? ≠ lastLetter st.last_city then
      { dbScore := score, dbState := st, accepted := false, crashed := false,
        savedScore := none, persisted := false, awarded := false, ended := false }
    else
      let score1 := score + 10
      let used1 := st.used_cities ++ [city]
      let nl := lastLetter city
      let avail := valid.filter (fun c => startsWithL nl c && ! decide (c ∈ used1))
      match avail.get? (pick % avail.length) with
      | some bot =>
        if score1 ≥ 100 then
          { dbScore := score1, dbState := ⟨bot, used1 ++ [bot]⟩, accepted := true,
            crashed := false, savedScore := some score1, persisted := true,
            awarded := true, ended := true }
        else
          { dbScore := score1, dbState := ⟨bot, used1 ++ [bot]⟩, accepted := true,
            crashed := false, savedScore := some score1, persisted := true,
            awarded := false, ended := false }
      | none =>
        { dbScore := score, dbState := st, accepted := true, crashed := false,
          savedScore := some score1, persisted := false,
          awarded := decide (score1 ≥ 100), ended := true }

/-- The `state` JSON blob of the Number-Guessing game. -/
structure GuessSt where
  target : Int
  attempts : Int
deriving DecidableEq

/-- The user-visible replies of one Number-Guessing turn. -/
inductive GuessReply where
  | hintLarger
  | hintSmaller
  | winContinue
  | winEnd
  | formatHint
  | notActive
deriving DecidableEq

/-- Observable effects of one Number-Guessing turn. -/
structure GuessOut where
  dbScore : Int
  dbState : GuessSt
  reply : GuessReply
  savedScore : Option Int
  awarded : Bool
  ended : Bool
deriving DecidableEq

/-- One Number-Guessing turn (handle_message, branch
`awaiting_game == "Guess"`). `input` is the result of `int(text.strip())`
(`none` when it raises ValueError); `newTarget` resolves
random.randint(1, 100) for the branch that draws a new number. -/
def guessTurn (gname : Option String) (score : Int) (st : GuessSt)
    (input : Option Int) (newTarget : Int) : GuessOut :=
  match input with
  | none =>
    { dbScore := score, dbState := st, reply := .formatHint,
      savedScore := none, awarded := false, ended := false }
  | some guess =>
    if gname ≠ some "Guess" then
      { dbScore := score, dbState := st, reply := .notActive,
        savedScore := none, awarded := false, ended := true }
    else
      let attempts1 := st.attempts + 1
      if guess = st.target then
        let score1 := score + 10
        if score1 ≥ 100 then
          { dbScore := score1, dbState := ⟨st.target, attempts1⟩, reply := .winEnd,
            savedScore := some score1, awarded := true, ended := true }
        else
          { dbScore := score1, dbState := ⟨newTarget, 0⟩, reply := .winContinue,
            savedScore := some score1, awarded := false, ended := false }
      else if guess < st.target then
        { dbScore := score, dbState := ⟨st.target, attempts1⟩, reply := .hintLarger,
          savedScore := none, awarded := false, ended := false }
      else
        { dbScore := score, dbState := ⟨st.target, attempts1⟩, reply := .hintSmaller,
          savedScore := none, awarded := false, ended := false }

/-- QUEST_STAGES from the source: the three quest prompts. -/
def QUEST_STAGES : List String :=
  ["Ты в тёмном лесу. Куда пойдёшь? (вперёд/назад)",
   "Ты нашёл сундук. Открыть? (да/нет)",
   "Внутри сундука ключ. Взять? (да/нет)"]

/-- `text.lower() in ["вперёд", "да"]` from the Quest branch. -/
def questOkInput (text : City) : Bool :=
  pyLower text == "вперёд".toList || pyLower text == "да".toList

/-- Observable effects of one Quest turn. -/
structure QuestOut where
  dbScore : Int
  dbStage : Int
  accepted : Bool
  savedScore : Option Int
  awarded : Bool
  ended : Bool
deriving DecidableEq

/-- One Quest turn (handle_message, branch `awaiting_game == "Quest"`). -/
def questTurn (gname : Option String) (score stage : Int) (text : City) : QuestOut :=
  if gname ≠ some "Quest" then
    { dbScore := score, dbStage := stage, accepted := false,
      savedScore := none, awarded := false, ended := true }
  else if questOkInput text ∧ stage < (QUEST_STAGES.length : Int) then
    let score1 := score + 10
    if stage + 1 ≥ (QUEST_STAGES.length : Int) then
      { dbScore := score1, dbStage := stage + 1, accepted := true,
        savedScore := some score1, awarded := decide (score1 ≥ 100), ended := true }
    else
      { dbScore := score1, dbStage := stage + 1, accepted := true,
        savedScore := some score1, awarded := false, ended := false }
  else
    { dbScore := score, dbStage := stage, accepted := false,
      savedScore := some score, awarded := false, ended := true }

/-- One riddle/answer pair of LOGIC_RIDDLES. -/
structure Riddle where
  riddle : String
  answer : String
deriving DecidableEq

/-- LOGIC_RIDDLES from the source. -/
def LOGIC_RIDDLES : List Riddle :=
  [⟨"Число: 2, 4, 6, ?. Какое следующее?", "8"⟩,
   ⟨"Что всегда идёт, но никогда не приходит?", "время"⟩,
   ⟨"У меня есть города, но нет домов. Что я?", "карта"⟩]

/-- Observable effects of one Logic-Riddle turn. `crashed` models the
uncaught IndexError of `LOGIC_RIDDLES[riddle_idx]` for an out-of-range
index (unreachable from a fresh session). -/
structure LogicOut where
  dbScore : Int
  dbIdx : Nat
  matched : Bool
  crashed : Bool
  savedScore : Option Int
  awarded : Bool
  ended : Bool
deriving DecidableEq

/-- One Logic-Riddle turn (handle_message, branch `awaiting_game == "Logic"`). -/
def logicTurn (gname : Option String) (score : Int) (idx : Nat) (text : City) : LogicOut :=
  if gname ≠ some "Logic" then
    { dbScore := score, dbIdx := idx, matched := false, crashed := false,
      savedScore := none, awarded := false, ended := true }
  else
    match LOGIC_RIDDLES.get? idx with
    | none =>
      { dbScore := score, dbIdx := idx, matched := false, crashed := true,
        savedScore := none, awarded := false, ended := false }
    | some r =>
      if pyLower (pyStrip text) = r.answer.toList then
        let score1 := score + 10
        let idx1 := (idx + 1) % LOGIC_RIDDLES.length
        if score1 ≥ 100 then
          { dbScore := score1, dbIdx := idx1, matched := true, crashed := false,
            savedScore := some score1, awarded := true, ended := true }
        else
          { dbScore := score1, dbIdx := idx1, matched := true, crashed := false,
            savedScore := some score1, awarded := false, ended := false }
      else
        { dbScore := score, dbIdx := idx, matched := false, crashed := false,
          savedScore := some score, awarded := false, ended := true }

/-- The four game names `awaiting_game` can carry. -/
inductive GameName where
  | Cities
  | Guess
  | Quest
  | Logic
deriving DecidableEq

/-- The transient per-conversation flags held in context.user_data.
`awaiting_game = none` covers both the absent key and the value False. -/
structure Flags where
  awaiting_city : Bool
  awaiting_game : Option GameName
deriving DecidableEq

/-- Which handler one free-text message reaches in handle_message. -/
inductive Route where
  | menu
  | cityLookup
  | game (g : GameName)
  | ignored
deriving DecidableEq

/-- `context.user_data.clear()` in the "Меню" branch. -/
def clearedFlags : Flags := ⟨false, none⟩

/-- The branch order of handle_message: the literal "Меню" check, then
`awaiting_city`, then the `awaiting_game` elif chain, else nothing.
The returned flags are the flags right after dispatch (only the "Меню"
and city branches change them before handler-specific work). -/
def routeMessage (text : City) (f : Flags) : Route × Flags :=
  if text = "Меню".toList then (.menu, clearedFlags)
  else if f.awaiting_city then (.cityLookup, ⟨false, f.awaiting_game⟩)
  else
    match f.awaiting_game with
    | some g => (.game g, f)
    | none => (.ignored, f)

/-- One session event: the persisted score before the turn, the score the
award check saw, and whether the achievement/stars block ran and whether
the turn ended the game. -/
structure Ev where
  before : Int
  after : Int
  awarded : Bool
  ended : Bool
deriving DecidableEq

/-- Run a session: thread the persisted score and state through the turns
while `awaiting_game` stays set; once a turn clears the flag the router
never dispatches to the engine again, so the trace stops. -/
def runTrace {σ ι : Type} (step : Int → σ → ι → Int × σ × Ev) :
    Int → σ → Bool → List ι → (Int × σ × Bool) × List Ev
  | sc, st, active, [] => ((sc, st, active), [])
  | sc, st, active, i :: is =>
    if active then
      let r := step sc st i
      let rest := runTrace step r.1 r.2.1 (! r.2.2.ended) is
      (rest.1, r.2.2 :: rest.2)
    else ((sc, st, false), [])

/-- City-Chain turn as a session step; the score the award check saw is
the score of the inserted game_results row (`score + 10` exactly on
accepted turns), or the unchanged score when no row was inserted. -/
def citiesStepT (valid : List City) (sc : Int) (st : CitiesSt) (i : City × Nat) :
    Int × CitiesSt × Ev :=
  let o := citiesTurn valid i.2 (some "Cities") sc st i.1
  (o.dbScore, o.dbState, ⟨sc, o.savedScore.getD sc, o.awarded, o.ended⟩)

/-- Number-Guessing turn as a session step. -/
def guessStepT (sc : Int) (st : GuessSt) (i : Option Int × Int) :
    Int × GuessSt × Ev :=
  let o := guessTurn (some "Guess") sc st i.1 i.2
  (o.dbScore, o.dbState, ⟨sc, o.savedScore.getD sc, o.awarded, o.ended⟩)

/-- Quest turn as a session step (the state is the stage). -/
def questStepT (sc stage : Int) (t : City) : Int × Int × Ev :=
  let o := questTurn (some "Quest") sc stage t
  (o.dbScore, o.dbStage, ⟨sc, o.savedScore.getD sc, o.awarded, o.ended⟩)

/-- Logic-Riddle turn as a session step (the state is the riddle index). -/
def logicStepT (sc : Int) (idx : Nat) (t : City) : Int × Nat × Ev :=
  let o := logicTurn (some "Logic") sc idx t
  (o.dbScore, o.dbIdx, ⟨sc, o.savedScore.getD sc, o.awarded, o.ended⟩)

/-- A fresh City-Chain session: start_game wrote score 0 and state `{}`,
whose `state.get` defaults are `last_city = ""` and `used_cities = []`. -/
def citiesRun (valid : List City) (l : List (City × Nat)) :
    (Int × CitiesSt × Bool) × List Ev :=
  runTrace (citiesStepT valid) 0 ⟨[], []⟩ true l

/-- A fresh Number-Guessing session with initial target `t0`. -/
def guessRun (t0 : Int) (l : List (Option Int × Int)) :
    (Int × GuessSt × Bool) × List Ev :=
  runTrace guessStepT 0 ⟨t0, 0⟩ true l

/-- A fresh Quest session at stage 0. -/
def questRun (l : List City) : (Int × Int × Bool) × List Ev :=
  runTrace questStepT 0 0 true l

/-- A fresh Logic-Riddle session at riddle index 0. -/
def logicRun (l : List City) : (Int × Nat × Bool) × List Ev :=
  runTrace logicStepT 0 0 true l

/-- Outcome of a Python call: a returned value or a propagated exception. -/
inductive Py (α : Type) where
  | ret (a : α)
  | exc (e : String)
deriving DecidableEq

/-- Python try/except/finally where the except clause returns `handler`:
an exception raised by the finally block replaces whatever the try/except
part was about to return. -/
def tryExceptFinally {α : Type} (body : Py α) (handler : Py α) (fin : Py Unit) : Py α :=
  let r := match body with
    | .ret a => Py.ret a
    | .exc _ => handler
  match fin with
  | .ret _ => r
  | .exc e => .exc e

/-- The shared `finally: cursor.close(); conn.close()` of every accessor:
when psycopg2.connect raised, the locals `cursor` and `conn` were never
bound, so the first close raises UnboundLocalError. -/
def closeLocals (connected : Bool) : Py Unit :=
  if connected then .ret () else .exc "UnboundLocalError"

/-- Whether an Except carries a value. -/
def isOkE {α : Type} : Except String α → Bool
  | .ok _ => true
  | .error _ => false

/-- get_game_state: `connect` is the psycopg2.connect outcome, `fetch` the
SELECT outcome; a missing row or any caught error yields (None, 0, '\x7b\x7d'). -/
def get_game_state (connect : Except String Unit)
    (fetch : Except String (Option (Option String × Int × String))) :
    Py (Option String × Int × String) :=
  tryExceptFinally
    (match connect with
     | .error e => .exc e
     | .ok _ =>
       match fetch with
       | .error e => .exc e
       | .ok (some row) => .ret row
       | .ok none => .ret (none, 0, "\x7b\x7d"))
    (Py.ret (none, 0, "\x7b\x7d"))
    (closeLocals (isOkE connect))

/-- get_favorite_city: returns the fetched city, or None on a missing row
or any caught error. -/
def get_favorite_city (connect : Except String Unit)
    (fetch : Except String (Option String)) : Py (Option String) :=
  tryExceptFinally
    (match connect with
     | .error e => .exc e
     | .ok _ =>
       match fetch with
       | .error e => .exc e
       | .ok (some c) => .ret (some c)
       | .ok none => .ret none)
    (Py.ret none)
    (closeLocals (isOkE connect))

/-- update_game_state: returns None either way; a caught error makes the
write a silent no-op. -/
def update_game_state (connect : Except String Unit)
    (exec : Except String Unit) : Py Unit :=
  tryExceptFinally
    (match connect with
     | .error e => .exc e
     | .ok _ =>
       match exec with
       | .error e => .exc e
       | .ok _ => .ret ())
    (Py.ret ())
    (closeLocals (isOkE connect))

/-- Python str.split with an explicit one-character separator. -/
def pySplit (sep : Char) : List Char → List (List Char)
  | [] => [[]]
  | c :: cs =>
    match pySplit sep cs with
    | [] => [[]]
    | f :: rest => if c = sep then [] :: f :: rest else (c :: f) :: rest

/-- The save_city branch of handle_callback:
`city = query.data.split("_")[2]`. -/
def savedFavorite (data : List Char) : List Char :=
  (pySplit '_' data).getD 2 []

/-- The callback payload built in handle_message:
`callback_data=f"save_city_\x7bcity\x7d"`. -/
def saveCityPayload (city : City) : List Char :=
  "save_city_".toList ++ city

/-- The relation between consecutive used_cities entries: the later city
starts with the earlier city's trailing playable letter. -/
def chainNext (a b : City) : Prop := b.head? = lastLetter a

/-- Invariant of the persisted City-Chain state: no duplicates, the chain
property, membership in the valid set, and last_city tracking the last
entry of used_cities. -/
def CitiesInv (valid : List City) (st : CitiesSt) : Prop :=
  st.used_cities.Nodup ∧
  List.Chain' chainNext st.used_cities ∧
  (∀ c ∈ st.used_cities, c ∈ valid) ∧
  (st.used_cities = [] ∧ st.last_city = [] ∨
    st.used_cities.getLast? = some st.last_city)
/-! ### Generic session-trace lemmas -/

theorem runTrace_inactive {σ ι : Type} (step : Int → σ → ι → Int × σ × Ev)
    (sc : Int) (st : σ) (l : List ι) :
    runTrace step sc st false l = ((sc, st, false), []) := by
  cases l <;> rfl

theorem runTrace_cons {σ ι : Type} (step : Int → σ → ι → Int × σ × Ev)
    (sc : Int) (st : σ) (i : ι) (is : List ι) :
    runTrace step sc st true (i :: is) =
      ((runTrace step (step sc st i).1 (step sc st i).2.1
          (! (step sc st i).2.2.ended) is).1,
       (step sc st i).2.2 ::
        (runTrace step (step sc st i).1 (step sc st i).2.1
          (! (step sc st i).2.2.ended) is).2) := rfl

theorem runTrace_award {σ ι : Type} (step : Int → σ → ι → Int × σ × Ev)
    (Inv : Int → σ → Prop)
    (hstep : ∀ sc st i, Inv sc st →
      (step sc st i).2.2.before = sc ∧
      sc < 100 ∧
      ((step sc st i).2.2.awarded = true ↔ sc < 100 ∧ 100 ≤ (step sc st i).2.2.after) ∧
      ((step sc st i).2.2.awarded = true → (step sc st i).2.2.ended = true) ∧
      ((step sc st i).2.2.ended = false → Inv (step sc st i).1 (step sc st i).2.1)) :
    ∀ (l : List ι) (sc : Int) (st : σ), Inv sc st →
      (∀ e ∈ (runTrace step sc st true l).2,
        (e.awarded = true ↔ e.before < 100 ∧ 100 ≤ e.after) ∧
        (e.awarded = true → e.ended = true)) ∧
      (runTrace step sc st true l).2.countP (fun e => e.awarded) ≤ 1 := by
  intro l
  induction l with
  | nil => intro sc st _; simp [runTrace]
  | cons i is ih =>
    intro sc st h
    obtain ⟨hb, hlt, hiff, hae, hkeep⟩ := hstep sc st i h
    rw [runTrace_cons]
    by_cases hend : (step sc st i).2.2.ended = true
    · rw [hend, show (! true) = false from rfl, runTrace_inactive]
      refine ⟨?_, ?_⟩
      · intro e he
        simp only [List.mem_singleton] at he
        subst he
        rw [hb]
        exact ⟨hiff, fun _ => hend⟩
      · cases haw : (step sc st i).2.2.awarded <;> simp [List.countP_cons, haw]
    · have hend' : (step sc st i).2.2.ended = false := by
        cases hh : (step sc st i).2.2.ended
        · rfl
        · exact absurd hh hend
      have hInv' := hkeep hend'
      have ihr := ih (step sc st i).1 (step sc st i).2.1 hInv'
      rw [hend', show (! false) = true from rfl]
      have hnaw : (step sc st i).2.2.awarded = false := by
        cases haw : (step sc st i).2.2.awarded
        · rfl
        · exact absurd (hae haw) (by simp [hend'])
      refine ⟨?_, ?_⟩
      · intro e he
        rcases List.mem_cons.mp he with he | he
        · subst he
          rw [hb]
          exact ⟨hiff, hae⟩
        · exact ihr.1 e he
      · simpa [List.countP_cons, hnaw] using ihr.2

/-! ### Per-engine award-step properties -/

theorem citiesStepT_props (valid : List City) (sc : Int) (st : CitiesSt)
    (i : City × Nat) (h : sc < 100) :
    (citiesStepT valid sc st i).2.2.before = sc ∧
    sc < 100 ∧
    ((citiesStepT valid sc st i).2.2.awarded = true ↔
      sc < 100 ∧ 100 ≤ (citiesStepT valid sc st i).2.2.after) ∧
    ((citiesStepT valid sc st i).2.2.awarded = true →
      (citiesStepT valid sc st i).2.2.ended = true) ∧
    ((citiesStepT valid sc st i).2.2.ended = false → (citiesStepT valid sc st i).1 < 100) := by
  obtain ⟨t, pick⟩ := i
  unfold citiesStepT citiesTurn
  dsimp only
  split_ifs with h1 h2 h3 h4 h5 h6 <;>
    first
      | (simp; omega)
      | (simp; done)
      | (split <;> first | (simp; omega) | (simp; done))

theorem guessStepT_props (sc : Int) (st : GuessSt) (i : Option Int × Int) (h : sc < 100) :
    (guessStepT sc st i).2.2.before = sc ∧
    sc < 100 ∧
    ((guessStepT sc st i).2.2.awarded = true ↔
      sc < 100 ∧ 100 ≤ (guessStepT sc st i).2.2.after) ∧
    ((guessStepT sc st i).2.2.awarded = true → (guessStepT sc st i).2.2.ended = true) ∧
    ((guessStepT sc st i).2.2.ended = false → (guessStepT sc st i).1 < 100) := by
  obtain ⟨inp, nt⟩ := i
  unfold guessStepT guessTurn
  cases inp with
  | none => simp; omega
  | some g =>
    dsimp only
    split_ifs with h1 h2 h3 h4 <;> first | (simp; omega) | (simp; done)

theorem questStepT_props (sc stage : Int) (t : City)
    (h : sc = 10 * stage ∧ 0 ≤ stage ∧ stage ≤ 2) :
    (questStepT sc stage t).2.2.before = sc ∧
    sc < 100 ∧
    ((questStepT sc stage t).2.2.awarded = true ↔
      sc < 100 ∧ 100 ≤ (questStepT sc stage t).2.2.after) ∧
    ((questStepT sc stage t).2.2.awarded = true → (questStepT sc stage t).2.2.ended = true) ∧
    ((questStepT sc stage t).2.2.ended = false →
      (questStepT sc stage t).1 = 10 * (questStepT sc stage t).2.1 ∧
      0 ≤ (questStepT sc stage t).2.1 ∧ (questStepT sc stage t).2.1 ≤ 2) := by
  obtain ⟨hs, h0, h2'⟩ := h
  unfold questStepT questTurn
  dsimp only
  split_ifs with h1 h2 h3 <;>
    first
      | (simp [QUEST_STAGES] at *; omega)
      | (simp; omega)
      | (simp; done)

theorem logicStepT_props (sc : Int) (idx : Nat) (t : City) (h : sc < 100) :
    (logicStepT sc idx t).2.2.before = sc ∧
    sc < 100 ∧
    ((logicStepT sc idx t).2.2.awarded = true ↔
      sc < 100 ∧ 100 ≤ (logicStepT sc idx t).2.2.after) ∧
    ((logicStepT sc idx t).2.2.awarded = true → (logicStepT sc idx t).2.2.ended = true) ∧
    ((logicStepT sc idx t).2.2.ended = false → (logicStepT sc idx t).1 < 100) := by
  unfold logicStepT logicTurn
  dsimp only
  split_ifs with h1 h2 <;>
    first
      | (simp; omega)
      | (simp; done)
      | (split <;> first | (simp; omega) | (simp; done) | (split_ifs <;> first | (simp; omega) | (simp; done)))

/-! ### Claim C3 -/

/-- Claim C3: in every mini-game session (score starts at 0 and changes only
by +10 on accepted turns) the achievement badge and the 10-point star grant
fire exactly once per session, exactly on the turn whose score transitions
from below 100 to at least 100; that turn ends the game; the award never
fires twice in one session and never on a turn whose score stays below 100. -/
theorem C3_award_exactly_once :
    (∀ (valid : List City) (l : List (City × Nat)),
      (∀ e ∈ (citiesRun valid l).2,
        (e.awarded = true ↔ e.before < 100 ∧ 100 ≤ e.after) ∧
        (e.awarded = true → e.ended = true)) ∧
      (citiesRun valid l).2.countP (fun e => e.awarded) ≤ 1) ∧
    (∀ (t0 : Int) (l : List (Option Int × Int)),
      (∀ e ∈ (guessRun t0 l).2,
        (e.awarded = true ↔ e.before < 100 ∧ 100 ≤ e.after) ∧
        (e.awarded = true → e.ended = true)) ∧
      (guessRun t0 l).2.countP (fun e => e.awarded) ≤ 1) ∧
    (∀ l : List City,
      (∀ e ∈ (questRun l).2,
        (e.awarded = true ↔ e.before < 100 ∧ 100 ≤ e.after) ∧
        (e.awarded = true → e.ended = true)) ∧
      (questRun l).2.countP (fun e => e.awarded) ≤ 1) ∧
    (∀ l : List City,
      (∀ e ∈ (logicRun l).2,
        (e.awarded = true ↔ e.before < 100 ∧ 100 ≤ e.after) ∧
        (e.awarded = true → e.ended = true)) ∧
      (logicRun l).2.countP (fun e => e.awarded) ≤ 1) := by
  refine ⟨?_, ?_, ?_, ?_⟩
  · intro valid l
    unfold citiesRun
    exact runTrace_award (citiesStepT valid) (fun sc _ => sc < 100)
      (fun sc st i h => citiesStepT_props valid sc st i h) l 0 ⟨[], []⟩ (by norm_num)
  · intro t0 l
    unfold guessRun
    exact runTrace_award guessStepT (fun sc _ => sc < 100)
      (fun sc st i h => guessStepT_props sc st i h) l 0 ⟨t0, 0⟩ (by norm_num)
  · intro l
    unfold questRun
    exact runTrace_award questStepT
      (fun sc stage => sc = 10 * stage ∧ 0 ≤ stage ∧ stage ≤ 2)
      (fun sc stage i h => questStepT_props sc stage i h) l 0 0 (by norm_num)
  · intro l
    unfold logicRun
    exact runTrace_award logicStepT (fun sc _ => sc < 100)
      (fun sc idx i h => logicStepT_props sc idx i h) l 0 0 (by norm_num)

theorem C3_award_exactly_once_witness :
    ((citiesRun ["москва".toList] [("москва".toList, 0)]).2.countP (fun e => e.awarded) ≤ 1) ∧
    ((guessRun 42 [(some 50, 7)]).2.countP (fun e => e.awarded) ≤ 1) ∧
    ((questRun ["вперёд".toList]).2.countP (fun e => e.awarded) ≤ 1) ∧
    ((logicRun ["8".toList]).2.countP (fun e => e.awarded) ≤ 1) ∧
    ((Ev.mk 0 10 false false).awarded = true ↔
      (Ev.mk 0 10 false false).before < 100 ∧ 100 ≤ (Ev.mk 0 10 false false).after) :=
  ⟨(C3_award_exactly_once.1 ["москва".toList] [("москва".toList, 0)]).2,
   (C3_award_exactly_once.2.1 42 [(some 50, 7)]).2,
   (C3_award_exactly_once.2.2.1 ["вперёд".toList]).2,
   (C3_award_exactly_once.2.2.2 ["8".toList]).2,
   ((C3_award_exactly_once.2.2.2 ["8".toList]).1 ⟨0, 10, false, false⟩ (by decide)).1⟩

/-! ### Claim C2 -/

/-- Claim C2: for every incoming free-text message, the literal text "Меню"
(case-sensitive) is handled first and unconditionally clears all
conversation flags, taking priority over any pending city prompt or active
game; otherwise `awaiting_city` is checked before `awaiting_game`, so when
both flags are set the text is treated as a city name, and a message with
neither flag set is ignored. -/
theorem C2_router_order :
    (∀ f : Flags, routeMessage "Меню".toList f = (Route.menu, clearedFlags)) ∧
    (∀ (t : City) (f : Flags), t ≠ "Меню".toList → f.awaiting_city = true →
      (routeMessage t f).1 = Route.cityLookup) ∧
    (∀ (t : City) (f : Flags) (g : GameName), t ≠ "Меню".toList →
      f.awaiting_city = false → f.awaiting_game = some g →
      (routeMessage t f).1 = Route.game g) ∧
    (∀ (t : City) (f : Flags), t ≠ "Меню".toList → f.awaiting_city = false →
      f.awaiting_game = none → (routeMessage t f).1 = Route.ignored) := by
  refine ⟨?_, ?_, ?_, ?_⟩ <;> intros <;> simp_all [routeMessage]

theorem C2_router_order_witness :
    routeMessage "Меню".toList ⟨true, some GameName.Cities⟩ = (Route.menu, clearedFlags) ∧
    (routeMessage "казань".toList ⟨true, some GameName.Guess⟩).1 = Route.cityLookup ∧
    (routeMessage "казань".toList ⟨false, some GameName.Quest⟩).1 = Route.game GameName.Quest ∧
    (routeMessage "казань".toList ⟨false, none⟩).1 = Route.ignored :=
  ⟨C2_router_order.1 ⟨true, some GameName.Cities⟩,
   C2_router_order.2.1 "казань".toList ⟨true, some GameName.Guess⟩ (by decide) rfl,
   C2_router_order.2.2.1 "казань".toList ⟨false, some GameName.Quest⟩ GameName.Quest
     (by decide) rfl rfl,
   C2_router_order.2.2.2 "казань".toList ⟨false, none⟩ (by decide) rfl rfl⟩

/-! ### Claim C8 -/

/-- Claim C8 (code bug): errors raised while executing the statement are
caught and a safe default returned, but when establishing the connection
itself fails, the shared `finally: cursor.close()` block touches the unbound
local `cursor` and raises UnboundLocalError instead of returning the safe
default — for get_game_state, get_favorite_city and update_game_state. -/
theorem C8_store_conn_failure :
    get_game_state (.error "connection failed") (.ok none) = Py.exc "UnboundLocalError" ∧
    get_favorite_city (.error "connection failed") (.ok none) = Py.exc "UnboundLocalError" ∧
    update_game_state (.error "connection failed") (.ok ()) = Py.exc "UnboundLocalError" ∧
    (∀ e, get_game_state (.ok ()) (.error e) = Py.ret (none, 0, "\x7b\x7d")) ∧
    (∀ e, get_favorite_city (.ok ()) (.error e) = Py.ret none) ∧
    (∀ e, update_game_state (.ok ()) (.error e) = Py.ret ()) :=
  ⟨rfl, rfl, rfl, fun _ => rfl, fun _ => rfl, fun _ => rfl⟩

/-! ### Claim C9 -/

/-- Claim C9: in every mini-game handler, when the game_name read from
game_progress (including the default None of a missing row or store error)
differs from the engine's own name, the handler replies "not active",
clears the awaiting_game flag and returns without writing any persisted
state; for Guess the read only happens after integer parsing, and a
non-integer input writes nothing either — so a stale or missing
game_progress row can never cause a scoring turn. -/
theorem C9_stale_game_guard :
    (∀ (valid : List City) (pick : Nat) (g : Option String) (sc : Int)
        (st : CitiesSt) (t : City), g ≠ some "Cities" →
      citiesTurn valid pick g sc st t = ⟨sc, st, false, false, none, false, false, true⟩) ∧
    (∀ (g : Option String) (sc : Int) (st : GuessSt) (n nt : Int), g ≠ some "Guess" →
      guessTurn g sc st (some n) nt = ⟨sc, st, GuessReply.notActive, none, false, true⟩) ∧
    (∀ (g : Option String) (sc : Int) (st : GuessSt) (nt : Int),
      guessTurn g sc st none nt = ⟨sc, st, GuessReply.formatHint, none, false, false⟩) ∧
    (∀ (g : Option String) (sc stage : Int) (t : City), g ≠ some "Quest" →
      questTurn g sc stage t = ⟨sc, stage, false, none, false, true⟩) ∧
    (∀ (g : Option String) (sc : Int) (idx : Nat) (t : City), g ≠ some "Logic" →
      logicTurn g sc idx t = ⟨sc, idx, false, false, none, false, true⟩) := by
  refine ⟨?_, ?_, ?_, ?_, ?_⟩ <;> intros <;>
    first
      | (unfold citiesTurn; simp_all)
      | (unfold guessTurn; simp_all)
      | (unfold questTurn; simp_all)
      | (unfold logicTurn; simp_all)

theorem C9_stale_game_guard_witness :
    citiesTurn [] 0 none 0 ⟨[], []⟩ [] = ⟨0, ⟨[], []⟩, false, false, none, false, false, true⟩ ∧
    guessTurn none 0 ⟨5, 0⟩ (some 3) 7 = ⟨0, ⟨5, 0⟩, GuessReply.notActive, none, false, true⟩ ∧
    guessTurn none 0 ⟨5, 0⟩ none 7 = ⟨0, ⟨5, 0⟩, GuessReply.formatHint, none, false, false⟩ ∧
    questTurn (some "Cities") 0 0 [] = ⟨0, 0, false, none, false, true⟩ ∧
    logicTurn none 0 0 [] = ⟨0, 0, false, false, none, false, true⟩ :=
  ⟨C9_stale_game_guard.1 [] 0 none 0 ⟨[], []⟩ [] (by decide),
   C9_stale_game_guard.2.1 none 0 ⟨5, 0⟩ 3 7 (by decide),
   C9_stale_game_guard.2.2.1 none 0 ⟨5, 0⟩ 7,
   C9_stale_game_guard.2.2.2.1 (some "Cities") 0 0 [] (by decide),
   C9_stale_game_guard.2.2.2.2 none 0 0 [] (by decide)⟩

/-! ### Claim C4 -/

/-- Claim C4 counterexample: a Logic turn with a correct intermediate answer
(riddle 0, answer "8", score 0) inserts a game_results row even though the
game continues — refuting "for the Logic engine a row is inserted only on
termination (never on an intermediate correct answer)". -/
theorem C4_logic_intermediate_row :
    (logicTurn (some "Logic") 0 0 "8".toList).savedScore = some 10 ∧
    (logicTurn (some "Logic") 0 0 "8".toList).matched = true ∧
    (logicTurn (some "Logic") 0 0 "8".toList).ended = false := by decide

/-- Claim C4 (amended): a game_results row is inserted on both intermediate
scoring turns and on termination for the City-Chain, Guess and Quest
engines, and also for the Logic engine, which inserts on every turn —
intermediate correct answers included — not only on termination. -/
theorem C4_results_rows :
    (∀ (valid : List City) (pick : Nat) (g : Option String) (sc : Int)
        (st : CitiesSt) (t : City),
      (citiesTurn valid pick g sc st t).savedScore.isSome =
        (citiesTurn valid pick g sc st t).accepted) ∧
    (∀ (sc : Int) (st : GuessSt) (n nt : Int),
      (guessTurn (some "Guess") sc st (some n) nt).savedScore.isSome =
        decide (n = st.target)) ∧
    (∀ (g : Option String) (sc : Int) (st : GuessSt) (nt : Int),
      (guessTurn g sc st none nt).savedScore = none) ∧
    (∀ (sc stage : Int) (t : City),
      (questTurn (some "Quest") sc stage t).savedScore.isSome = true) ∧
    (∀ (sc : Int) (idx : Nat) (t : City), idx < LOGIC_RIDDLES.length →
      (logicTurn (some "Logic") sc idx t).savedScore.isSome = true) := by
  refine ⟨?_, ?_, ?_, ?_, ?_⟩
  · intro valid pick g sc st t
    unfold citiesTurn
    dsimp only
    split_ifs <;> first | (simp; done) | (split <;> simp)
  · intro sc st n nt
    unfold guessTurn
    dsimp only
    split_ifs <;> simp_all
  · intro g sc st nt
    rfl
  · intro sc stage t
    unfold questTurn
    dsimp only
    split_ifs <;> simp_all
  · intro sc idx t h
    unfold logicTurn
    rw [if_neg (by simp), List.get?_eq_get h]
    dsimp only
    by_cases hm : pyLower (pyStrip t) = (LOGIC_RIDDLES.get ⟨idx, h⟩).answer.toList
    · rw [if_pos hm]
      split_ifs <;> simp
    · rw [if_neg hm]
      simp

theorem C4_results_rows_witness :
    (citiesTurn ["москва".toList] 0 (some "Cities") 0 ⟨[], []⟩ "москва".toList).savedScore.isSome =
      (citiesTurn ["москва".toList] 0 (some "Cities") 0 ⟨[], []⟩ "москва".toList).accepted ∧
    (guessTurn (some "Guess") 0 ⟨42, 0⟩ (some 42) 7).savedScore.isSome = decide ((42:Int) = (GuessSt.mk 42 0).target) ∧
    (guessTurn (some "Guess") 0 ⟨42, 0⟩ none 7).savedScore = none ∧
    (questTurn (some "Quest") 0 1 "назад".toList).savedScore.isSome = true ∧
    (logicTurn (some "Logic") 0 0 "время".toList).savedScore.isSome = true :=
  ⟨C4_results_rows.1 ["москва".toList] 0 (some "Cities") 0 ⟨[], []⟩ "москва".toList,
   C4_results_rows.2.1 0 ⟨42, 0⟩ 42 7,
   C4_results_rows.2.2.1 (some "Guess") 0 ⟨42, 0⟩ 7,
   C4_results_rows.2.2.2.1 0 1 "назад".toList,
   C4_results_rows.2.2.2.2 0 0 "время".toList (by decide)⟩

/-! ### Claim C5 -/

/-- Claim C5 counterexample: an accepted City-Chain turn with no available
bot reply logs the final score and ends the game, but never calls
update_game_state — the game_progress row keeps the stale score 0 —
refuting "persists the updated score/state to game_progress". -/
theorem C5_no_bot_no_persist :
    (citiesTurn ["москва".toList] 0 (some "Cities") 0 ⟨[], []⟩ "москва".toList).accepted = true ∧
    (citiesTurn ["москва".toList] 0 (some "Cities") 0 ⟨[], []⟩ "москва".toList).ended = true ∧
    (citiesTurn ["москва".toList] 0 (some "Cities") 0 ⟨[], []⟩ "москва".toList).savedScore = some 10 ∧
    (citiesTurn ["москва".toList] 0 (some "Cities") 0 ⟨[], []⟩ "москва".toList).persisted = false ∧
    (citiesTurn ["москва".toList] 0 (some "Cities") 0 ⟨[], []⟩ "москва".toList).dbScore = 0 := by
  decide

/-- Claim C5 (amended): when no valid unused city starts with the user's
city's trailing playable letter, the engine logs the final score score+10
to game_results, performs the same >=100 achievement/point check, and ends
the game immediately — but it does not write the updated score/state back
to game_progress (update_game_state is never called on this path). -/
theorem C5_no_bot_reply (valid : List City) (pick : Nat) (sc : Int)
    (st : CitiesSt) (t : City)
    (hne : pyLower (pyStrip t) ≠ [])
    (hc : pyLower (pyStrip t) ∈ valid)
    (hu : pyLower (pyStrip t) ∉ st.used_cities)
    (hl : st.last_city = [] ∨ (pyLower (pyStrip t)).head? = lastLetter st.last_city)
    (hav : valid.filter (fun c => startsWithL (lastLetter (pyLower (pyStrip t))) c &&
      ! decide (c ∈ st.used_cities ++ [pyLower (pyStrip t)])) = []) :
    citiesTurn valid pick (some "Cities") sc st t =
      ⟨sc, st, true, false, some (sc + 10), false, decide (sc + 10 ≥ 100), true⟩ := by
  unfold citiesTurn
  dsimp only
  rw [if_neg (by simp), if_neg (by simp [hc]), if_neg (by simp [hu]),
    if_neg (by rcases hl with hl | hl <;> simp [hne]),
    if_neg (by rcases hl with hl | hl <;> simp [hl]), hav]
  rfl

theorem C5_no_bot_reply_witness :
    citiesTurn ["москва".toList] 0 (some "Cities") 0 ⟨[], []⟩ "москва".toList =
      ⟨0, ⟨[], []⟩, true, false, some (0 + 10), false, decide ((0:Int) + 10 ≥ 100), true⟩ :=
  C5_no_bot_reply ["москва".toList] 0 0 ⟨[], []⟩ "москва".toList
    (by decide) (by decide) (by decide) (Or.inl rfl) (by decide)

/-! ### Claim C6 -/

/-- Claim C6: Number-Guessing hints are "larger" iff guess < target and
"smaller" iff guess > target (strict comparison); attempts increments
exactly once per non-winning integer guess with the target kept; attempts
is reset to 0 exactly on a winning guess that keeps the game open, and the
reset comes with a freshly drawn target; non-integer input produces a
format hint with no change to score, target or attempts, and the game
stays open. -/
theorem C6_guess_hints_attempts (sc : Int) (st : GuessSt) (g nt : Int)
    (hA : 0 ≤ st.attempts) :
    ((guessTurn (some "Guess") sc st (some g) nt).reply = GuessReply.hintLarger ↔
      g < st.target) ∧
    ((guessTurn (some "Guess") sc st (some g) nt).reply = GuessReply.hintSmaller ↔
      st.target < g) ∧
    (g ≠ st.target →
      (guessTurn (some "Guess") sc st (some g) nt).dbState.attempts = st.attempts + 1 ∧
      (guessTurn (some "Guess") sc st (some g) nt).dbState.target = st.target ∧
      (guessTurn (some "Guess") sc st (some g) nt).dbScore = sc ∧
      (guessTurn (some "Guess") sc st (some g) nt).ended = false) ∧
    ((guessTurn (some "Guess") sc st (some g) nt).dbState.attempts = 0 ↔
      g = st.target ∧ sc + 10 < 100) ∧
    (g = st.target → sc + 10 < 100 →
      (guessTurn (some "Guess") sc st (some g) nt).dbState.target = nt) ∧
    (∀ (gn : Option String) (sc2 : Int) (st2 : GuessSt) (nt2 : Int),
      guessTurn gn sc2 st2 none nt2 =
        ⟨sc2, st2, GuessReply.formatHint, none, false, false⟩) := by
  refine ⟨?_, ?_, ?_, ?_, ?_, fun _ _ _ _ => rfl⟩ <;>
    (unfold guessTurn; dsimp only; split_ifs <;> simp_all <;> omega)

theorem C6_guess_hints_attempts_witness :
    (0:Int) ≤ (GuessSt.mk 42 0).attempts ∧
    ((guessTurn (some "Guess") 0 ⟨42, 0⟩ (some 50) 7).reply = GuessReply.hintSmaller ↔
      (42:Int) < 50) ∧
    ((guessTurn (some "Guess") 0 ⟨42, 0⟩ (some 42) 7).dbState.attempts = 0 ↔
      (42:Int) = 42 ∧ (0:Int) + 10 < 100) :=
  ⟨by decide,
   (C6_guess_hints_attempts 0 ⟨42, 0⟩ 50 7 (by decide)).2.1,
   (C6_guess_hints_attempts 0 ⟨42, 0⟩ 42 7 (by decide)).2.2.2.1⟩

/-! ### Claim C7 -/

theorem quest_len : ((QUEST_STAGES.length : Nat) : Int) = 3 := by
  norm_num [QUEST_STAGES]

theorem questStepT_accept (sc stage : Int) (t : City) (hok : questOkInput t = true)
    (hlt : stage < 3) (hend : ¬ stage + 1 ≥ 3) :
    questStepT sc stage t = (sc + 10, stage + 1, ⟨sc, sc + 10, false, false⟩) := by
  unfold questStepT questTurn
  simp only [quest_len]
  rw [if_neg (by simp), if_pos ⟨hok, hlt⟩, if_neg hend]
  rfl

theorem questStepT_accept_end (sc stage : Int) (t : City) (hok : questOkInput t = true)
    (hlt : stage < 3) (hend : stage + 1 ≥ 3) :
    questStepT sc stage t =
      (sc + 10, stage + 1, ⟨sc, sc + 10, decide (sc + 10 ≥ 100), true⟩) := by
  unfold questStepT questTurn
  simp only [quest_len]
  rw [if_neg (by simp), if_pos ⟨hok, hlt⟩, if_pos hend]
  rfl

theorem questStepT_reject (sc stage : Int) (t : City)
    (h : ¬ (questOkInput t = true ∧ stage < 3)) :
    questStepT sc stage t = (sc, stage, ⟨sc, sc, false, true⟩) := by
  unfold questStepT questTurn
  simp only [quest_len]
  rw [if_neg (by simp), if_neg h]
  rfl

theorem questRun_stage3_aux :
    ∀ (l : List City) (sc stage : Int), 0 ≤ stage → stage ≤ 2 →
      ((runTrace questStepT sc stage true l).1.2.1 = 3 ↔
        (3 - stage).toNat ≤ l.length ∧
        ∀ t ∈ l.take (3 - stage).toNat, questOkInput t = true) := by
  intro l
  induction l with
  | nil =>
    intro sc stage h0 h2
    simp only [runTrace, List.length_nil, List.take_nil]
    constructor
    · intro hf; omega
    · rintro ⟨hlen, -⟩; omega
  | cons t ts ih =>
    intro sc stage h0 h2
    rw [runTrace_cons]
    by_cases hok : questOkInput t = true
    · by_cases hend : stage + 1 ≥ 3
      · rw [questStepT_accept_end sc stage t hok (by omega) hend]
        dsimp only
        rw [show (! true) = false from rfl, runTrace_inactive]
        dsimp only
        have hs : stage = 2 := by omega
        subst hs
        have hk : ((3:Int) - 2).toNat = 1 := by norm_num
        rw [hk]
        simp [hok]
      · rw [questStepT_accept sc stage t hok (by omega) hend]
        dsimp only
        rw [show (! false) = true from rfl]
        rw [ih (sc + 10) (stage + 1) (by omega) (by omega)]
        have hk : (3 - stage).toNat = (3 - (stage + 1)).toNat + 1 := by omega
        rw [hk, List.length_cons, List.take_succ_cons]
        simp only [List.forall_mem_cons, hok, true_and]
        constructor
        · rintro ⟨a, b⟩; exact ⟨by omega, b⟩
        · rintro ⟨a, b⟩; exact ⟨by omega, b⟩
    · rw [questStepT_reject sc stage t (by simp [hok])]
      dsimp only
      rw [show (! true) = false from rfl, runTrace_inactive]
      dsimp only
      constructor
      · intro hf; omega
      · rintro ⟨hlen, hall⟩
        exfalso
        apply hok
        apply hall t
        have hk : (3 - stage).toNat = ((3 - stage).toNat - 1) + 1 := by omega
        rw [hk, List.take_succ_cons]
        exact List.mem_cons_self _ _

/-- Claim C7 counterexample: at stage 1 the input "вперёд" — which the claim
says is accepted at stage 0 only, everything else failing the quest — is
accepted: the score rises by 10 and the stage advances, and the quest does
not end. -/
theorem C7_vpered_any_stage :
    (questTurn (some "Quest") 10 1 "вперёд".toList).accepted = true ∧
    (questTurn (some "Quest") 10 1 "вперёд".toList).dbScore = 20 ∧
    (questTurn (some "Quest") 10 1 "вперёд".toList).dbStage = 2 ∧
    (questTurn (some "Quest") 10 1 "вперёд".toList).ended = false := by decide

/-- Claim C7 (amended): the accepted continuation inputs (compared
case-insensitively) are "вперёд" and "да", each accepted at every stage
below 3 — not "вперёд" at stage 0 only; any other input, or any input at
stage >= 3, ends the quest in failure with score unchanged, a game_results
row logged and the game ended; an accepted input adds 10 to score and
advances stage by exactly 1, ending the quest exactly when stage 3 is
reached; hence a fresh session reaches stage 3 iff its first three inputs
are all accepted continuation inputs. -/
theorem C7_quest_rules :
    (∀ (sc stage : Int) (t : City), questOkInput t = true → stage < 3 →
      (questTurn (some "Quest") sc stage t).accepted = true ∧
      (questTurn (some "Quest") sc stage t).dbScore = sc + 10 ∧
      (questTurn (some "Quest") sc stage t).dbStage = stage + 1 ∧
      (questTurn (some "Quest") sc stage t).savedScore = some (sc + 10) ∧
      ((questTurn (some "Quest") sc stage t).ended = true ↔ 3 ≤ stage + 1)) ∧
    (∀ (sc stage : Int) (t : City), questOkInput t = false ∨ 3 ≤ stage →
      (questTurn (some "Quest") sc stage t).accepted = false ∧
      (questTurn (some "Quest") sc stage t).dbScore = sc ∧
      (questTurn (some "Quest") sc stage t).dbStage = stage ∧
      (questTurn (some "Quest") sc stage t).savedScore = some sc ∧
      (questTurn (some "Quest") sc stage t).ended = true) ∧
    (∀ l : List City, (questRun l).1.2.1 = 3 ↔
      3 ≤ l.length ∧ ∀ t ∈ l.take 3, questOkInput t = true) := by
  refine ⟨?_, ?_, ?_⟩
  · intro sc stage t hok hlt
    unfold questTurn
    simp only [quest_len]
    rw [if_neg (by simp), if_pos ⟨hok, hlt⟩]
    split_ifs with h <;> simp <;> omega
  · intro sc stage t h
    unfold questTurn
    simp only [quest_len]
    rw [if_neg (by simp), if_neg (by rcases h with h | h <;> simp [h] <;> omega)]
    simp
  · intro l
    have := questRun_stage3_aux l 0 0 (by norm_num) (by norm_num)
    unfold questRun
    simpa using this

theorem C7_quest_rules_witness :
    (questRun ["вперёд".toList, "да".toList, "да".toList]).1.2.1 = 3 :=
  (C7_quest_rules.2.2 ["вперёд".toList, "да".toList, "да".toList]).mpr
    ⟨by decide, by decide⟩

/-! ### Claim C10 -/

theorem pySplit_ne_nil (sep : Char) (l : List Char) : pySplit sep l ≠ [] := by
  induction l with
  | nil => simp [pySplit]
  | cons c cs ih =>
    simp only [pySplit]
    rcases h : pySplit sep cs with _ | ⟨f, rest⟩
    · simp
    · split_ifs <;> simp

theorem pySplit_cons_sep (sep : Char) (cs : List Char) :
    pySplit sep (sep :: cs) = [] :: pySplit sep cs := by
  rcases h : pySplit sep cs with _ | ⟨f, rest⟩
  · exact absurd h (pySplit_ne_nil sep cs)
  · simp [pySplit, h]

theorem pySplit_cons_ne (sep c : Char) (cs : List Char) (hc : c ≠ sep) :
    pySplit sep (c :: cs) =
      (c :: (pySplit sep cs).headD []) :: (pySplit sep cs).tail := by
  rcases h : pySplit sep cs with _ | ⟨f, rest⟩
  · exact absurd h (pySplit_ne_nil sep cs)
  · simp [pySplit, h, hc]

theorem pySplit_sepfree_append (sep : Char) (xs ys : List Char)
    (h : ∀ c ∈ xs, c ≠ sep) :
    pySplit sep (xs ++ sep :: ys) = xs :: pySplit sep ys := by
  induction xs with
  | nil => simpa using pySplit_cons_sep sep ys
  | cons c cs ih =>
    have hc : c ≠ sep := h c (by simp)
    have ih2 := ih (fun d hd => h d (by simp [hd]))
    rw [List.cons_append, pySplit_cons_ne sep c _ hc, ih2]
    simp

theorem pySplit_headD (sep : Char) (l : List Char) :
    (pySplit sep l).headD [] = l.takeWhile (fun c => ! (c == sep)) := by
  induction l with
  | nil => simp [pySplit]
  | cons c cs ih =>
    by_cases hc : c = sep
    · subst hc
      rw [pySplit_cons_sep]
      simp [List.takeWhile_cons]
    · rw [pySplit_cons_ne sep c cs hc]
      simp only [List.headD_cons, List.takeWhile_cons]
      rw [if_pos (by simp [hc]), ih]

theorem takeWhile_sepfree (pre suf : List Char) (h : '_' ∉ pre) :
    (pre ++ '_' :: suf).takeWhile (fun c => ! (c == '_')) = pre := by
  induction pre with
  | nil =>
    rw [List.nil_append]
    exact List.takeWhile_cons_of_neg (by decide)
  | cons c cs ih =>
    have hc : ¬ c = '_' := fun e => h (by simp [e])
    simp only [List.cons_append, List.takeWhile_cons]
    rw [if_pos (by simp [hc]), ih (fun hm => h (List.mem_cons_of_mem _ hm))]

theorem savedFavorite_payload (city : City) :
    savedFavorite (saveCityPayload city) =
      city.takeWhile (fun c => ! (c == '_')) := by
  unfold savedFavorite saveCityPayload
  have h1 : ("save_city_".toList ++ city) =
      ['s','a','v','e'] ++ '_' :: (['c','i','t','y'] ++ '_' :: city) := rfl
  rw [h1, pySplit_sepfree_append '_' ['s','a','v','e'] _ (by decide),
    pySplit_sepfree_append '_' ['c','i','t','y'] _ (by decide)]
  rcases h2 : pySplit '_' city with _ | ⟨f, rest⟩
  · exact absurd h2 (pySplit_ne_nil '_' city)
  · have h3 := pySplit_headD '_' city
    rw [h2] at h3
    simp [List.getD, ← h3]

/-- Claim C10: the favorite saved by the save_city_ callback is the third
underscore-separated field of the payload "save_city_" ++ city, i.e. the
prefix of the typed city up to its first underscore; so for a typed city
containing an underscore the saved favorite is a strict truncation and
differs from the city shown in the forecast confirmation. -/
theorem C10_save_city_truncation (city : City) :
    savedFavorite (saveCityPayload city) =
      city.takeWhile (fun c => ! (c == '_')) ∧
    (∀ pre suf : List Char, city = pre ++ '_' :: suf → '_' ∉ pre →
      savedFavorite (saveCityPayload city) = pre ∧
      savedFavorite (saveCityPayload city) ≠ city) := by
  refine ⟨savedFavorite_payload city, ?_⟩
  rintro pre suf rfl hfree
  rw [savedFavorite_payload, takeWhile_sepfree pre suf hfree]
  refine ⟨rfl, ?_⟩
  intro he
  have := congrArg List.length he
  simp at this

theorem C10_save_city_truncation_witness :
    savedFavorite (saveCityPayload "улан_удэ".toList) = "улан".toList ∧
    savedFavorite (saveCityPayload "улан_удэ".toList) ≠ "улан_удэ".toList :=
  (C10_save_city_truncation "улан_удэ".toList).2 "улан".toList "удэ".toList
    (by decide) (by decide)

/-! ### Claim C1 -/

theorem lastLetter_isSome (valid : List City)
    (hGood : ∀ c ∈ valid, stripSigns c ≠ []) (c : City) (hc : c ∈ valid) :
    ∃ a, lastLetter c = some a := by
  unfold lastLetter
  rcases hq : (stripSigns c).getLast? with _ | a
  · exact absurd (List.getLast?_eq_none_iff.mp hq) (hGood c hc)
  · exact ⟨a, rfl⟩

theorem cities_accept_state (valid : List City)
    (hGood : ∀ c ∈ valid, stripSigns c ≠ [])
    (st : CitiesSt) (city bot : City) (hInv : CitiesInv valid st)
    (hcv : city ∈ valid) (hcu : city ∉ st.used_cities)
    (hacc : st.last_city = [] ∨ city.head? = lastLetter st.last_city)
    (hbot : bot ∈ valid.filter (fun c => startsWithL (lastLetter city) c &&
      ! decide (c ∈ st.used_cities ++ [city]))) :
    CitiesInv valid ⟨bot, (st.used_cities ++ [city]) ++ [bot]⟩ := by
  obtain ⟨hnd, hch, hsub, hlast⟩ := hInv
  obtain ⟨hbv, hcond⟩ := List.mem_filter.mp hbot
  simp only [Bool.and_eq_true, Bool.not_eq_true', decide_eq_false_iff_not] at hcond
  obtain ⟨hstart, hnotin⟩ := hcond
  obtain ⟨a, ha⟩ := lastLetter_isSome valid hGood city hcv
  have hbh : bot.head? = some a := by
    rw [ha] at hstart
    unfold startsWithL at hstart
    simpa using hstart
  have hnd1 : (st.used_cities ++ [city]).Nodup := by
    rw [List.nodup_append]
    refine ⟨hnd, List.nodup_singleton _, ?_⟩
    intro x hx hx2
    rw [List.mem_singleton] at hx2
    exact hcu (hx2 ▸ hx)
  refine ⟨?_, ?_, ?_, ?_⟩
  · rw [List.nodup_append]
    refine ⟨hnd1, List.nodup_singleton _, ?_⟩
    intro x hx hx2
    rw [List.mem_singleton] at hx2
    exact hnotin (hx2 ▸ hx)
  · rw [List.chain'_append]
    refine ⟨?_, List.chain'_singleton _, ?_⟩
    · rw [List.chain'_append]
      refine ⟨hch, List.chain'_singleton _, ?_⟩
      intro x hx y hy
      simp only [List.head?_cons, Option.mem_def, Option.some.injEq] at hy
      subst hy
      have hne : st.used_cities ≠ [] := by
        intro he
        rw [he] at hx
        simp at hx
      rcases hlast with ⟨he, -⟩ | hlast
      · exact absurd he hne
      · have hx' : x = st.last_city := by
          rw [Option.mem_def, hlast] at hx
          exact (Option.some_inj.mp hx).symm
        subst hx'
        have hlv : st.last_city ∈ valid :=
          hsub _ (List.mem_of_mem_getLast? (Option.mem_def.mpr hlast))
        have hlne : st.last_city ≠ [] := by
          intro he
          have hg := hGood _ hlv
          rw [he] at hg
          exact hg rfl
        rcases hacc with hacc | hacc
        · exact absurd hacc hlne
        · exact hacc
    · intro x hx y hy
      simp only [List.head?_cons, Option.mem_def, Option.some.injEq] at hy
      subst hy
      have hx' : x = city := by
        rw [Option.mem_def, List.getLast?_concat] at hx
        exact (Option.some_inj.mp hx).symm
      rw [hx']
      show bot.head? = lastLetter city
      rw [hbh, ha]
  · intro c hc
    rcases List.mem_append.mp hc with hc | hc
    · rcases List.mem_append.mp hc with hc | hc
      · exact hsub c hc
      · rw [List.mem_singleton] at hc
        exact hc ▸ hcv
    · rw [List.mem_singleton] at hc
      exact hc ▸ hbv
  · right
    exact List.getLast?_concat _

theorem citiesTurn_preserves_inv (valid : List City)
    (hGood : ∀ c ∈ valid, stripSigns c ≠ [])
    (pick : Nat) (gname : Option String) (sc : Int) (st : CitiesSt) (t : City)
    (hInv : CitiesInv valid st) :
    CitiesInv valid (citiesTurn valid pick gname sc st t).dbState := by
  unfold citiesTurn
  dsimp only
  split_ifs with h1 h2 h3 h4 h5 h6 <;> try exact hInv
  all_goals
    rcases hbot : (valid.filter (fun c => startsWithL (lastLetter (pyLower (pyStrip t))) c &&
        ! decide (c ∈ st.used_cities ++ [pyLower (pyStrip t)]))).get?
        (pick % (valid.filter (fun c => startsWithL (lastLetter (pyLower (pyStrip t))) c &&
        ! decide (c ∈ st.used_cities ++ [pyLower (pyStrip t)]))).length) with _ | bot
  all_goals first
    | exact hInv
    | (refine cities_accept_state valid hGood st (pyLower (pyStrip t)) bot hInv h2 h3 ?_
        (List.get?_mem hbot)
       by_cases hl : st.last_city = []
       · exact Or.inl hl
       · right
         by_contra hne
         exact h5 ⟨hl, hne⟩)

theorem citiesRun_inv_aux (valid : List City)
    (hGood : ∀ c ∈ valid, stripSigns c ≠ []) :
    ∀ (l : List (City × Nat)) (sc : Int) (st : CitiesSt) (active : Bool),
      CitiesInv valid st →
      CitiesInv valid (runTrace (citiesStepT valid) sc st active l).1.2.1 := by
  intro l
  induction l with
  | nil =>
    intro sc st active h
    cases active <;> simpa [runTrace] using h
  | cons i is ih =>
    intro sc st active h
    cases active
    · rw [runTrace_inactive]
      exact h
    · rw [runTrace_cons]
      dsimp only
      exact ih _ _ _
        (citiesTurn_preserves_inv valid hGood i.2 (some "Cities") sc st i.1 h)

/-- Claim C1: for every lower-cased trimmed input city, the turn is
rejected with no persisted state change if the city is not in the
valid-city set or already occurs in used_cities; the required starting
letter is lastLetter last_city — the last character after repeatedly
stripping trailing soft/hard signs — with no constraint when last_city is
empty, and an input whose first character differs from that letter is
rejected with no state change; consequently, over any sequence of turns of
a fresh session the persisted used_cities has no duplicates and every city
in it starts with the trailing playable letter of its predecessor. -/
theorem C1_city_chain (valid : List City)
    (hGood : ∀ c ∈ valid, stripSigns c ≠ []) :
    (∀ (pick : Nat) (gname : Option String) (sc : Int) (st : CitiesSt) (t : City),
      pyLower (pyStrip t) ∉ valid ∨ pyLower (pyStrip t) ∈ st.used_cities →
      (citiesTurn valid pick gname sc st t).accepted = false ∧
      (citiesTurn valid pick gname sc st t).dbScore = sc ∧
      (citiesTurn valid pick gname sc st t).dbState = st ∧
      (citiesTurn valid pick gname sc st t).savedScore = none) ∧
    (∀ (pick : Nat) (sc : Int) (st : CitiesSt) (t : City),
      st.last_city ≠ [] →
      (pyLower (pyStrip t)).head? ≠ lastLetter st.last_city →
      (citiesTurn valid pick (some "Cities") sc st t).accepted = false ∧
      (citiesTurn valid pick (some "Cities") sc st t).dbScore = sc ∧
      (citiesTurn valid pick (some "Cities") sc st t).dbState = st) ∧
    (∀ (pick : Nat) (sc : Int) (st : CitiesSt) (t : City),
      st.last_city = [] → pyLower (pyStrip t) ∈ valid →
      pyLower (pyStrip t) ∉ st.used_cities →
      (citiesTurn valid pick (some "Cities") sc st t).accepted = true) ∧
    (∀ l : List (City × Nat),
      ((citiesRun valid l).1.2.1.used_cities).Nodup ∧
      List.Chain' chainNext (citiesRun valid l).1.2.1.used_cities) := by
  refine ⟨?_, ?_, ?_, ?_⟩
  · intro pick gname sc st t h
    unfold citiesTurn
    dsimp only
    split_ifs with h1 h2 h3 h4 h5 h6 <;>
      first
        | (simp; done)
        | (exfalso; rcases h with h | h
           exacts [h h2, h3 h])
  · intro pick sc st t hl hh
    unfold citiesTurn
    dsimp only
    split_ifs with h1 h2 h3 h4 h5 h6 <;>
      first
        | (simp; done)
        | (exact absurd ⟨hl, hh⟩ h5)
  · intro pick sc st t hl hv hu
    unfold citiesTurn
    dsimp only
    rw [if_neg (by simp), if_neg (not_not_intro hv), if_neg hu,
      if_neg (fun hc => hc.1 hl), if_neg (fun hc => hc.1 hl)]
    split
    · split_ifs <;> rfl
    · rfl
  · intro l
    unfold citiesRun
    have h := citiesRun_inv_aux valid hGood l 0 ⟨[], []⟩ true
      ⟨List.nodup_nil, List.chain'_nil, by intro c hc; simp at hc, Or.inl ⟨rfl, rfl⟩⟩
    exact ⟨h.1, h.2.1⟩

theorem C1_city_chain_witness :
    (∀ c ∈ ["москва".toList, "архангельск".toList], stripSigns c ≠ []) ∧
    (citiesTurn ["москва".toList, "архангельск".toList] 0 (some "Cities") 10
      ⟨"архангельск".toList, ["москва".toList, "архангельск".toList]⟩
      "москва".toList).accepted = false ∧
    ((citiesRun ["москва".toList, "архангельск".toList]
      [("москва".toList, 0)]).1.2.1.used_cities).Nodup ∧
    List.Chain' chainNext (citiesRun ["москва".toList, "архангельск".toList]
      [("москва".toList, 0)]).1.2.1.used_cities := by
  refine ⟨by decide, ?_, ?_, ?_⟩
  · exact ((C1_city_chain ["москва".toList, "архангельск".toList] (by decide)).1
      0 (some "Cities") 10 _ "москва".toList (Or.inr (by decide))).1
  · exact ((C1_city_chain ["москва".toList, "архангельск".toList] (by decide)).2.2.2
      [("москва".toList, 0)]).1
  · exact ((C1_city_chain ["москва".toList, "архангельск".toList] (by decide)).2.2.2
      [("москва".toList, 0)]).2

end ChatBot
